import Mathlib

/-!
Verification development for the PayNow payment-orchestration backend.

The definitions below are a shallow embedding of the JavaScript sources:
`server.js` (STK-push initiation, the M-Pesa callback endpoint, the query
endpoint), `invoiceService.js` (customer aggregate upsert and invoice
pipeline), `reminderService.js` (reminder-tier sweep), and the credential
resolvers of `paystackService`, `stripeService.js` and `paypalService`.

Modelling conventions:
* JavaScript objects with possibly-missing fields become `Option`-valued
  record fields; JavaScript truthiness of a string field is modelled by
  `jsTruthyStr` (both `undefined` and the empty string are falsy).
* A thrown JavaScript exception is an `Except` error; code that can throw
  is written in `Except`, the enclosing route-level `try/catch` is the
  `match` in the outer handler.
* Firestore documents relevant to one request are carried in an explicit
  state record; timestamps and audit-only fields that no claim mentions are
  elided, the fields the claims are about are modelled exactly.
* Machine numbers are modelled as `Int` (amounts, counters) and `Rat`
  (the hour computations of the reminder sweep, which divide exactly).
-/

namespace PayNow

/-- JavaScript truthiness of an optional string: `undefined` and `""` are
falsy, every other string is truthy. -/
def jsTruthyStr : Option String → Bool
  | none => false
  | some s => s ≠ ""

/-- The JavaScript idiom `x || d` on an optional string field. -/
def jsOrStr (o : Option String) (d : String) : String :=
  match o with
  | none => d
  | some s => if s = "" then d else s

/-- Whitespace as matched by the regexp class used in the phone formatters
(space, tab, newline, carriage return, vertical tab, form feed). -/
def isJsWs (c : Char) : Bool :=
  c = ' ' || c = '\t' || c = '\n' || c = '\r' || c = '\x0b' || c = '\x0c'

/-- The model of `String.prototype.trim`: drop whitespace at both ends. -/
def jsTrim (l : List Char) : List Char :=
  ((l.dropWhile isJsWs).reverse.dropWhile isJsWs).reverse

/-- The model of `phoneNumber.replace(/^\+|^0+|\s+/g, "")` from
`server.js` line 295 (and the identical lines in `smsService.js` and
`reminderService.js`): at position 0 the regexp removes a single leading
`+`, or else the maximal leading run of `0`s; `\s+` removes every
whitespace run (the anchored alternatives cannot match after position 0
because the regexp has no multiline flag). -/
def stripPhoneChars : List Char → List Char
  | [] => []
  | c :: rest =>
      if c = '+' then rest.filter (fun x => !isJsWs x)
      else if c = '0' then ((c :: rest).dropWhile (fun x => x = '0')).filter (fun x => !isJsWs x)
      else (c :: rest).filter (fun x => !isJsWs x)

/-- The model of `phoneNumber.startsWith("254")`. -/
def starts254 (l : List Char) : Bool :=
  match l with
  | a :: b :: c :: _ => a = '2' && b = '5' && c = '4'
  | _ => false

/-- Phone-number formatting from `server.js` lines 293-299: trim, strip
the leading `+` or zeros and all whitespace, then prepend `254` when the
result does not already start with it. -/
def formatPhoneL (l : List Char) : List Char :=
  let t := stripPhoneChars (jsTrim l)
  if starts254 t then t else '2' :: '5' :: '4' :: t

/-- String-level wrapper of `formatPhoneL`. -/
def formatPhone (s : String) : String :=
  String.mk (formatPhoneL s.data)

/-- The validation regexp `/^254\d{9}$/` of `server.js` line 302: the
literal prefix `254` followed by exactly nine digits. -/
def isValidPhone (l : List Char) : Bool :=
  starts254 l && (l.drop 3).length = 9 && (l.drop 3).all Char.isDigit

theorem dropWhile_eq_self_of_none {p : Char → Bool} {l : List Char}
    (h : ∀ c ∈ l, p c = false) : l.dropWhile p = l := by
  cases l with
  | nil => rfl
  | cons c t =>
      have hc := h c (List.mem_cons_self c t)
      simp [List.dropWhile, hc]

theorem filter_eq_self_of_none {l : List Char}
    (h : ∀ c ∈ l, isJsWs c = false) : l.filter (fun c => !isJsWs c) = l := by
  rw [List.filter_eq_self]
  intro c hc
  simp [h c hc]

theorem jsTrim_eq_self {l : List Char}
    (h : ∀ c ∈ l, isJsWs c = false) : jsTrim l = l := by
  unfold jsTrim
  rw [dropWhile_eq_self_of_none h]
  rw [dropWhile_eq_self_of_none (fun c hc => h c (List.mem_reverse.mp hc))]
  exact List.reverse_reverse l

theorem mem_stripPhoneChars_not_ws {l : List Char} {c : Char}
    (h : c ∈ stripPhoneChars l) : isJsWs c = false := by
  cases l with
  | nil => simp [stripPhoneChars] at h
  | cons c0 rest =>
      rw [stripPhoneChars] at h
      split at h
      · rw [List.mem_filter] at h
        simpa using h.2
      · split at h
        · rw [List.mem_filter] at h
          simpa using h.2
        · rw [List.mem_filter] at h
          simpa using h.2

theorem mem_formatPhoneL_not_ws {l : List Char} {c : Char}
    (h : c ∈ formatPhoneL l) : isJsWs c = false := by
  simp only [formatPhoneL] at h
  split at h
  · exact mem_stripPhoneChars_not_ws h
  · simp only [List.mem_cons] at h
    rcases h with rfl | rfl | rfl | h
    · rfl
    · rfl
    · rfl
    · exact mem_stripPhoneChars_not_ws h

theorem starts254_formatPhoneL (l : List Char) :
    starts254 (formatPhoneL l) = true := by
  simp only [formatPhoneL]
  split
  · assumption
  · rfl

theorem exists_rest_of_starts254 {l : List Char} (hs : starts254 l = true) :
    ∃ rest, l = '2' :: '5' :: '4' :: rest := by
  cases l with
  | nil => simp [starts254] at hs
  | cons a t =>
      cases t with
      | nil => simp [starts254] at hs
      | cons b u =>
          cases u with
          | nil => simp [starts254] at hs
          | cons c v =>
              simp only [starts254, Bool.and_eq_true, decide_eq_true_eq] at hs
              obtain ⟨⟨rfl, rfl⟩, rfl⟩ := hs
              exact ⟨v, rfl⟩

theorem formatPhoneL_eq_self {l : List Char}
    (hs : starts254 l = true) (hw : ∀ c ∈ l, isJsWs c = false) :
    formatPhoneL l = l := by
  obtain ⟨rest, rfl⟩ := exists_rest_of_starts254 hs
  unfold formatPhoneL
  rw [jsTrim_eq_self hw]
  have hstrip : stripPhoneChars ('2' :: '5' :: '4' :: rest) =
      '2' :: '5' :: '4' :: rest := by
    rw [stripPhoneChars, if_neg (by decide), if_neg (by decide)]
    exact filter_eq_self_of_none hw
  rw [hstrip, if_pos hs]

theorem formatPhoneL_idem (l : List Char) :
    formatPhoneL (formatPhoneL l) = formatPhoneL l :=
  formatPhoneL_eq_self (starts254_formatPhoneL l)
    (fun _ hc => mem_formatPhoneL_not_ws hc)

/-- Canonical transaction status.  The spec names four statuses; which of
them the code can actually persist is settled by the theorems below. -/
inductive Status
  | pending
  | success
  | failed
  | canceled
deriving DecidableEq, Repr

/-- One entry of the `CallbackMetadata.Item` list (`Name`/`Value`). -/
structure MetadataItem where
  name : String
  value : String
deriving DecidableEq, Repr

/-- The `Body.stkCallback` object of an M-Pesa callback.  `items` models
`CallbackMetadata?.Item`: it is `none` when either level is absent. -/
structure StkCb where
  resultCode : Option Int
  resultDesc : Option String
  items : Option (List MetadataItem)
deriving DecidableEq, Repr

/-- The optional `Body` member of a raw callback payload. -/
structure CallbackBody where
  stkCallback : Option StkCb
deriving DecidableEq, Repr

/-- A raw callback payload as delivered to `POST /callback/:orderId`.
A garbled payload is one whose `body` (or whose `stkCallback`) is absent. -/
structure CallbackPayload where
  body : Option CallbackBody
deriving DecidableEq, Repr

/-- A thrown JavaScript exception reaching the route-level `try/catch`. -/
inductive JsErr
  | typeError
  | dbError
deriving DecidableEq, Repr

/-- The persisted transaction document (collection `transactions`), with
the fields the claims are about; timestamps and the `callbackData` audit
snapshot are elided.  `lastRawPayload` models the `mpesaResponse` field
that stores the full callback payload. -/
structure Transaction where
  status : Status
  amount : Int
  payerPhone : Option String := none
  payerName : Option String := none
  payerEmail : Option String := none
  mpesaReceiptNumber : Option String := none
  resultDescription : Option String := none
  hasInvoice : Bool := false
  lastRawPayload : Option CallbackPayload := none
deriving DecidableEq, Repr

/-- The Customer aggregate document (`merchants/{mid}/customers/{cid}`):
the two counters the claims are about.  Identity fields, timestamps and
the per-processor stats are elided. -/
structure Customer where
  totalTransactions : Int
  totalSpent : Int
deriving DecidableEq, Repr

/-- The document-store slice one callback delivery touches: the
transaction document addressed by the order id, the customer document
addressed by the payer identity, and counters of outbound side-effect
calls (invoice pipeline runs, SMS sends). -/
structure ServerState where
  txn : Option Transaction
  customer : Option Customer
  invoiceCalls : Nat
  smsCalls : Nat
deriving DecidableEq, Repr

/-- The external world as seen by one callback delivery: whether the
Firestore status update succeeds and whether the invoice PDF upload
succeeds. -/
structure Oracle where
  updateOk : Bool
  invoiceOk : Bool
deriving DecidableEq, Repr

/-- Scan of the metadata item list for the `MpesaReceiptNumber` field
(`server.js` lines 497-503); an absent item list yields no receipt. -/
def scanReceipt (items : Option (List MetadataItem)) : Option String :=
  match items with
  | some its =>
      match its.find? (fun it => it.name = "MpesaReceiptNumber") with
      | some it => some it.value
      | none => none
  | none => none

/-- The result-code normalization of the callback handler (`server.js`
lines 490-506).  `callbackData.Body.stkCallback` is read with plain member
access, so a payload without `Body` or without `stkCallback` throws a
`TypeError`; `ResultCode === 0` yields `success` plus the receipt scanned
from the metadata items, and any other situation (a nonzero code or a
missing code) yields `failed` with the payload's `ResultDesc` or the
default text. -/
def callbackOutcome (p : CallbackPayload) :
    Except JsErr (Status × Option String × String) :=
  match p.body with
  | none => .error .typeError
  | some body =>
      match body.stkCallback with
      | none => .error .typeError
      | some stk =>
          if stk.resultCode = some 0 then
            .ok (.success, scanReceipt stk.items, "Payment successful")
          else
            .ok (.failed, none, jsOrStr stk.resultDesc "Payment failed")

/-- The total, optional-chaining access `Body?.stkCallback?.CallbackMetadata?.Item`
used by the payer-data extraction (`server.js` line 517). -/
def metaItems (p : CallbackPayload) : Option (List MetadataItem) :=
  match p.body with
  | none => none
  | some body =>
      match body.stkCallback with
      | none => none
      | some stk => stk.items

/-- Best-effort payer-phone extraction (`server.js` lines 509-524): start
from the stored `payerPhone` (or `""`), then take a truthy `PhoneNumber`
metadata item when one is present. -/
def extractPhone (p : CallbackPayload) (txn : Transaction) : String :=
  let base := jsOrStr txn.payerPhone ""
  match metaItems p with
  | some items =>
      match items.find? (fun it => it.name = "PhoneNumber") with
      | some it => if it.value = "" then base else it.value
      | none => base
  | none => base

/-- The customer-aggregate upsert `storeCustomerInformation`
(`invoiceService.js` lines 567-658).  The customer document is addressed
by payer phone, falling back to email; when neither is truthy the function
returns without writing.  `totalTransactions` becomes the stored value
plus one (1 for a new document) and `totalSpent` adds the transaction
amount.  The function catches its own errors and never throws. -/
def storeCustomerInformation (payerPhone : String) (payerEmail : Option String)
    (amount : Int) (cust : Option Customer) : Option Customer :=
  if payerPhone = "" && !(jsTruthyStr payerEmail) then cust
  else
    match cust with
    | some c =>
        some { totalTransactions := c.totalTransactions + 1,
               totalSpent := c.totalSpent + amount }
    | none => some { totalTransactions := 1, totalSpent := amount }

/-- The body of `app.post("/callback/:orderId")` (`server.js` lines
476-629).  When the transaction document is absent the handler only logs.
Otherwise it parses the result code (which may throw), persists the parsed
status, receipt, description and raw payload unconditionally — there is no
terminal-state or re-delivery check — and, when the new status is
`success`, runs the side effects: the customer upsert, then
`processTransactionInvoice` inside its own `try/catch` (the invoice
pipeline calls `storeCustomerInformation` a second time from
`storeInvoiceReference` and sets `hasInvoice` when the upload succeeds),
then the SMS send.  Every throw site precedes every write, so a thrown
error leaves the state unchanged. -/
def handleCallbackInner (o : Oracle) (p : CallbackPayload) (st : ServerState) :
    Except JsErr ServerState :=
  match st.txn with
  | none => .ok st
  | some txn =>
      match callbackOutcome p with
      | .error e => .error e
      | .ok (newStatus, receipt, desc) =>
          if !o.updateOk then .error .dbError
          else
            let phoneNumber := extractPhone p txn
            let txn1 : Transaction :=
              { txn with status := newStatus,
                         mpesaReceiptNumber := receipt,
                         resultDescription := some desc,
                         lastRawPayload := some p }
            if newStatus = .success then
              let cust1 := storeCustomerInformation phoneNumber txn.payerEmail
                txn.amount st.customer
              let cust2 := if o.invoiceOk
                then storeCustomerInformation phoneNumber txn.payerEmail
                  txn.amount cust1
                else cust1
              let txn2 := if o.invoiceOk then { txn1 with hasInvoice := true }
                else txn1
              .ok { txn := some txn2, customer := cust2,
                    invoiceCalls := st.invoiceCalls + 1,
                    smsCalls := st.smsCalls + 1 }
            else .ok { st with txn := some txn1 }

/-- An HTTP response as produced by the modelled endpoints. -/
structure HttpResponse where
  status : Nat
  responseCode : String
  responseDesc : String
deriving DecidableEq, Repr

/-- The gateway-facing acknowledgement body of the callback endpoint. -/
def mpesaAck : HttpResponse :=
  { status := 200, responseCode := "0", responseDesc := "Success" }

/-- The callback route with its `try/catch` (`server.js` lines 630-643):
both the normal path and the catch respond HTTP 200 with the M-Pesa
acknowledgement body. -/
def handleCallback (o : Oracle) (p : CallbackPayload) (st : ServerState) :
    HttpResponse × ServerState :=
  match handleCallbackInner o p st with
  | .ok st1 => (mpesaAck, st1)
  | .error _ => (mpesaAck, st)

/-- The `totalTransactions` counter of an optional customer document
(0 when the document does not exist). -/
def custTotal : Option Customer → Int
  | some c => c.totalTransactions
  | none => 0

/-- Merchant M-Pesa settings (`merchantSettings/{mid}.mpesa`). -/
structure MpesaSettings where
  enabled : Bool
  shortCode : Option String := none
  passkey : Option String := none
  consumerKey : Option String := none
  consumerSecret : Option String := none
deriving DecidableEq, Repr

/-- Merchant Paystack settings (`merchantSettings/{mid}.paystack`). -/
structure PaystackSettings where
  enabled : Bool
  secretKey : Option String := none
deriving DecidableEq, Repr

/-- Merchant Stripe settings (`merchantSettings/{mid}.stripe`). -/
structure StripeSettings where
  enabled : Bool
  secretKey : Option String := none
deriving DecidableEq, Repr

/-- Merchant PayPal settings (`merchantSettings/{mid}.paypal`). -/
structure PayPalSettings where
  enabled : Bool
  clientId : Option String := none
  clientSecret : Option String := none
  environment : Option String := none
deriving DecidableEq, Repr

/-- The `merchantSettings/{mid}` document. -/
structure MerchantSettings where
  mpesa : Option MpesaSettings := none
  paystack : Option PaystackSettings := none
  stripe : Option StripeSettings := none
  paypal : Option PayPalSettings := none
deriving DecidableEq, Repr

/-- An STK-push initiation request body (`POST /stkpush`). -/
structure StkReq where
  phone : String
  amount : Int
  orderId : String
  merchantId : Option String
deriving DecidableEq, Repr

/-- Where the STK-push handler exits.  `gatewayRequest` means every local
and configuration check passed and the handler proceeds to the access-token
fetch and the outbound STK HTTP call; all other constructors are error
responses produced before any gateway traffic. -/
inductive StkOutcome
  | missingFields
  | invalidPhone
  | invalidAmount
  | missingMerchant
  | settingsNotFound
  | notEnabled
  | incompleteConfig
  | gatewayRequest (phone : String) (amount : Int) (orderId : String)
deriving DecidableEq, Repr

/-- The check-and-dispatch pipeline of `app.post("/stkpush")` (`server.js`
lines 274-395), up to the outbound gateway call: field presence
(JavaScript truthiness, so an amount of 0 is a missing field), phone
normalization and the `/^254\d{9}$/` test, the amount range check, the
merchant id, then the merchant M-Pesa configuration checks, in source
order. -/
def stkpushHandler (req : StkReq) (settingsDoc : Option MerchantSettings) :
    StkOutcome :=
  if req.phone = "" || req.amount = 0 || req.orderId = "" then .missingFields
  else if !(isValidPhone (formatPhone req.phone).data) then .invalidPhone
  else if req.amount ≤ 0 then .invalidAmount
  else if !(jsTruthyStr req.merchantId) then .missingMerchant
  else
    match settingsDoc with
    | none => .settingsNotFound
    | some ms =>
        match ms.mpesa with
        | none => .settingsNotFound
        | some cfg =>
            if !cfg.enabled then .notEnabled
            else if !(jsTruthyStr cfg.shortCode) || !(jsTruthyStr cfg.passkey)
              then .incompleteConfig
            else .gatewayRequest (formatPhone req.phone) req.amount req.orderId

/-- HTTP status of each STK-push exit; every pre-gateway error responds
400.  For `gatewayRequest` the eventual status depends on the gateway
interaction, which is outside this model; 200 stands for the accepted
path. -/
def stkHttpStatus : StkOutcome → Nat
  | .missingFields => 400
  | .invalidPhone => 400
  | .invalidAmount => 400
  | .missingMerchant => 400
  | .settingsNotFound => 400
  | .notEnabled => 400
  | .incompleteConfig => 400
  | .gatewayRequest _ _ _ => 200

/-- Whether an STK-push exit reaches the outbound gateway call. -/
def stkGatewayCalled : StkOutcome → Bool
  | .gatewayRequest _ _ _ => true
  | _ => false

/-- The hardcoded fallback key of `stripeService.js` line 7. -/
def DEFAULT_STRIPE_SECRET_KEY : String :=
  "sk_test_51NxMhLIgdXRfgqGLJkEbCTxBEJLcRgGZyUBbKGnMmzYAGxRHDQpLDDpbXwHKe3XRxvVMKWoAOUkrSzxCVTxGq00Jf9Qy1Jb"

/-- The hardcoded fallback key of `paystackService.js` line 10. -/
def DEFAULT_PAYSTACK_SECRET_KEY : String :=
  "sk_test_c449a3c5c2bef1e8f7b87add1c6a5a9b1b66a88c"

/-- The hardcoded fallback client id of `paypalService.js` line 8. -/
def DEFAULT_PAYPAL_CLIENT_ID : String :=
  "AQwaPBBf1-OF1TS_29leZUm_NWcZMJnpnODwIB6FSoXJykYNPKIzuJLe1uXV0pT-qwuJHvEhEfOUUJR9"

/-- The hardcoded fallback secret of `paypalService.js` line 9. -/
def DEFAULT_PAYPAL_SECRET : String :=
  "EKSQs-RPojR5VtN-a-wHEIAIlUhDmjl7YTMnFMGPfbk-rGSGw4I33UcUfJgbPT9UD1YpqDDzA8RLLyPj"

/-- Model of `getPaystackSecretKey` (`paystackService.js` lines 17-45): returns the
merchant key only when the merchant id is truthy, the settings document
exists and `paystack.secretKey`/`paystack.enabled` are set; every other
path (including a Firestore read error, modelled as an absent document)
returns the hardcoded default key. -/
def getPaystackSecretKey (merchantId : Option String)
    (settingsDoc : Option MerchantSettings) : String :=
  if !(jsTruthyStr merchantId) then DEFAULT_PAYSTACK_SECRET_KEY
  else
    match settingsDoc with
    | none => DEFAULT_PAYSTACK_SECRET_KEY
    | some settings =>
        match settings.paystack with
        | none => DEFAULT_PAYSTACK_SECRET_KEY
        | some ps =>
            if !(jsTruthyStr ps.secretKey) || !ps.enabled
              then DEFAULT_PAYSTACK_SECRET_KEY
            else ps.secretKey.getD ""

/-- The key handed to the Stripe SDK by `getStripeInstance`
(`stripeService.js` lines 17-47); the fallback structure mirrors
`getPaystackSecretKey`. -/
def getStripeSecretKey (merchantId : Option String)
    (settingsDoc : Option MerchantSettings) : String :=
  if !(jsTruthyStr merchantId) then DEFAULT_STRIPE_SECRET_KEY
  else
    match settingsDoc with
    | none => DEFAULT_STRIPE_SECRET_KEY
    | some settings =>
        match settings.stripe with
        | none => DEFAULT_STRIPE_SECRET_KEY
        | some ss =>
            if !(jsTruthyStr ss.secretKey) || !ss.enabled
              then DEFAULT_STRIPE_SECRET_KEY
            else ss.secretKey.getD ""

/-- Resolved PayPal credentials. -/
structure PayPalCreds where
  clientId : String
  clientSecret : String
  environment : String
deriving DecidableEq, Repr

/-- The sandbox fallback credentials of `paypalService.js`. -/
def defaultPayPalCreds : PayPalCreds :=
  { clientId := DEFAULT_PAYPAL_CLIENT_ID,
    clientSecret := DEFAULT_PAYPAL_SECRET,
    environment := "sandbox" }

/-- Model of `getPayPalCredentials` (`paypalService.js` lines 20-70): merchant
credentials only when the id is truthy, the document exists and
`paypal.clientId`/`clientSecret`/`enabled` are all set; every other path
returns the hardcoded sandbox credentials. -/
def getPayPalCredentials (merchantId : Option String)
    (settingsDoc : Option MerchantSettings) : PayPalCreds :=
  if !(jsTruthyStr merchantId) then defaultPayPalCreds
  else
    match settingsDoc with
    | none => defaultPayPalCreds
    | some settings =>
        match settings.paypal with
        | none => defaultPayPalCreds
        | some pp =>
            if !(jsTruthyStr pp.clientId) || !(jsTruthyStr pp.clientSecret)
                || !pp.enabled
              then defaultPayPalCreds
            else
              { clientId := pp.clientId.getD "",
                clientSecret := pp.clientSecret.getD "",
                environment := jsOrStr pp.environment "sandbox" }

/-- A JavaScript scalar as it appears in a gateway JSON response, for the
strict-equality (`===`) comparisons of the query endpoint. -/
inductive JVal
  | str (s : String)
  | num (n : Int)
  | undef
deriving DecidableEq, Repr

/-- A `POST /query` request body. -/
structure QueryReq where
  queryCode : Option String
  merchantId : Option String
deriving DecidableEq, Repr

/-- The outcome of the outbound status-query gateway interaction:
`ok` is an HTTP success whose JSON carries `ResultCode` and
`ResponseCode`; `apiError` is an axios rejection with the gateway error
fields; `thrown` is any other exception reaching the route-level catch
(for example an access-token failure). -/
inductive QGateway
  | ok (resultCode : JVal) (responseCode : Option String)
  | apiError (errorCode : Option String) (errorMessage : Option String)
  | thrown
deriving DecidableEq, Repr

/-- The response of the query endpoint: HTTP status, `ResponseCode`, and
the advisory flags the UI polls for. -/
structure QueryResponse where
  status : Nat
  responseCode : String
  isSuccessful : Option Bool := none
  isCanceled : Option Bool := none
  isProcessing : Option Bool := none
deriving DecidableEq, Repr

/-- The transaction collection as a whole, for frame statements. -/
abbrev TxnStore := List (String × Transaction)

/-- Model of `app.post("/query")` (`server.js` lines 646-855) over the transaction
collection.  Every branch — parameter validation, merchant configuration
errors, each `ResultCode` case of a gateway success, each gateway error
code, and the route-level catch — produces a response and passes the
transaction collection through untouched; the endpoint reads only the
`merchantSettings` document.  `ResultCode` comparisons are strict, so the
`"0"`/`"1032"` branches match only strings while the still-processing
branch also accepts the number 4999, as in the source. -/
def queryHandler (req : QueryReq) (settingsDoc : Option MerchantSettings)
    (gw : QGateway) (txns : TxnStore) : QueryResponse × TxnStore :=
  if !(jsTruthyStr req.queryCode) then
    ({ status := 200, responseCode := "1" }, txns)
  else if !(jsTruthyStr req.merchantId) then
    ({ status := 400, responseCode := "1" }, txns)
  else
    match settingsDoc with
    | none => ({ status := 400, responseCode := "1" }, txns)
    | some ms =>
        match ms.mpesa with
        | none => ({ status := 400, responseCode := "1" }, txns)
        | some cfg =>
            if !cfg.enabled then ({ status := 400, responseCode := "1" }, txns)
            else if !(jsTruthyStr cfg.shortCode) || !(jsTruthyStr cfg.passkey)
              then ({ status := 400, responseCode := "1" }, txns)
            else
              match gw with
              | .ok rc respCode =>
                  if rc = .str "0" then
                    ({ status := 200, responseCode := "0",
                       isSuccessful := some true }, txns)
                  else if rc = .str "1032" then
                    ({ status := 200, responseCode := "3",
                       isCanceled := some true }, txns)
                  else if rc = .str "4999" || rc = .num 4999 then
                    ({ status := 200, responseCode := "2",
                       isProcessing := some true }, txns)
                  else
                    ({ status := 200, responseCode := jsOrStr respCode "0" },
                     txns)
              | .apiError errorCode _ =>
                  if errorCode = some "500.001.1001" then
                    ({ status := 400, responseCode := "1" }, txns)
                  else if errorCode = some "500.001.1032"
                      || errorCode = some "404.001.03" then
                    ({ status := 200, responseCode := "3",
                       isCanceled := some true }, txns)
                  else if errorCode = some "400.002.02" then
                    ({ status := 400, responseCode := "1" }, txns)
                  else ({ status := 200, responseCode := "1" }, txns)
              | .thrown => ({ status := 200, responseCode := "1" }, txns)

/-- A payment-link document (`paymentLinks` collection) with the fields
the reminder sweep reads.  Timestamps are the Firestore `seconds` values. -/
structure PaymentLink where
  status : String
  paid : Bool
  expiryDateSec : Option Int := none
  createdAtSec : Option Int := none
  lastReminderSentSec : Option Int := none
  lastReminderType : Option String := none
  recipientPhone : Option String := none
deriving DecidableEq, Repr

/-- Reminder tiers. -/
inductive Tier
  | first
  | second
  | final
deriving DecidableEq, Repr

/-- The `x?.seconds ? new Date(...) : null` idiom of the sweep: a missing
or zero (falsy) timestamp counts as absent. -/
def truthySeconds : Option Int → Bool
  | none => false
  | some n => n ≠ 0

/-- Hours elapsed between a stored `seconds` timestamp and `Date.now()`
in milliseconds, as the sweep computes them. -/
def hoursBetween (nowMs : Int) (sec : Int) : Rat :=
  ((nowMs : Rat) - (sec : Rat) * 1000) / (1000 * 60 * 60)

/-- Per-link tier selection of `checkUnpaidLinks` (`reminderService.js`
lines 139-210).  The Firestore query restricts to `status == "active"`;
the loop skips expired, paid, phone-less and `createdAt`-less links, then
picks at most one tier by the first matching branch: no reminder yet and
at least 24 hours since creation gives `first`; last tier `first` and at
least 48 hours since the last reminder gives `second`; last tier `second`
and at least 72 hours gives `final`; otherwise nothing fires. -/
def selectReminderTier (nowMs : Int) (link : PaymentLink) : Option Tier :=
  if link.status ≠ "active" then none
  else if (match link.expiryDateSec with
           | some e => decide ((e : Rat) < (nowMs : Rat) / 1000)
           | none => false) then none
  else if link.paid then none
  else if !(jsTruthyStr link.recipientPhone) then none
  else if !(truthySeconds link.createdAtSec) then none
  else if !(truthySeconds link.lastReminderSentSec) then
    if hoursBetween nowMs (link.createdAtSec.getD 0) ≥ 24 then some .first
    else none
  else if link.lastReminderType = some "first"
      ∧ hoursBetween nowMs (link.lastReminderSentSec.getD 0) ≥ 48 then
    some .second
  else if link.lastReminderType = some "second"
      ∧ hoursBetween nowMs (link.lastReminderSentSec.getD 0) ≥ 72 then
    some .final
  else none

/-! ### Concrete fixtures used by counterexamples and witnesses -/

/-- A freshly initiated transaction awaiting its callback. -/
def pendingTxn : Transaction :=
  { status := .pending, amount := 100, payerPhone := some "254712345678" }

/-- State with one pending transaction and no customer document. -/
def stPending : ServerState :=
  { txn := some pendingTxn, customer := none, invoiceCalls := 0, smsCalls := 0 }

/-- External world where the Firestore update and the invoice upload both
succeed. -/
def liveOracle : Oracle := { updateOk := true, invoiceOk := true }

/-- The `stkCallback` of a successful payment, with a receipt-number and a
phone-number metadata item. -/
def successStk : StkCb :=
  { resultCode := some 0,
    resultDesc := some "The service request is processed successfully.",
    items := some [ { name := "MpesaReceiptNumber", value := "ABC123" },
                    { name := "PhoneNumber", value := "254712345678" } ] }

/-- A successful callback payload. -/
def successPayload : CallbackPayload :=
  { body := some { stkCallback := some successStk } }

/-- The `stkCallback` of a failed payment (nonzero generic result code). -/
def failedStk : StkCb :=
  { resultCode := some 1,
    resultDesc := some "The balance is insufficient for the transaction.",
    items := none }

/-- A failed callback payload. -/
def failedPayload : CallbackPayload :=
  { body := some { stkCallback := some failedStk } }

/-- The `stkCallback` carrying the user-canceled result code 1032. -/
def canceledStk : StkCb :=
  { resultCode := some 1032,
    resultDesc := some "Request cancelled by user",
    items := none }

/-- A callback payload with the user-canceled result code. -/
def canceledPayload : CallbackPayload :=
  { body := some { stkCallback := some canceledStk } }

/-- A garbled payload: the `Body` field is missing entirely. -/
def garbledPayload : CallbackPayload := { body := none }

/-- A transaction already in the terminal `success` state. -/
def successTxn : Transaction :=
  { status := .success, amount := 100, payerPhone := some "254712345678",
    mpesaReceiptNumber := some "ABC123" }

/-- State holding the terminal transaction. -/
def stTerminal : ServerState :=
  { txn := some successTxn, customer := none, invoiceCalls := 0, smsCalls := 0 }

/-- The state after delivering the same successful callback twice. -/
def stAfterTwo : ServerState :=
  (handleCallback liveOracle successPayload
    (handleCallback liveOracle successPayload stPending).2).2

/-- An active unpaid link created 100 hours before the sweep time
360001000 ms, with no prior reminder. -/
def link100h : PaymentLink :=
  { status := "active", paid := false, createdAtSec := some 1,
    recipientPhone := some "254712345678" }

/-! ### Helper lemmas about digits and the phone formatter -/

theorem not_ws_of_digit {c : Char} (h : c.isDigit = true) : isJsWs c = false := by
  by_contra hc
  rw [Bool.not_eq_false] at hc
  simp only [isJsWs, Bool.or_eq_true, decide_eq_true_eq] at hc
  rcases hc with (((((rfl | rfl) | rfl) | rfl) | rfl) | rfl) <;>
    exact absurd h (by decide)

theorem stripPhoneChars_zero {d : List Char}
    (hdig : ∀ c ∈ d, c.isDigit = true) (h0 : d.head? ≠ some '0') :
    stripPhoneChars ('0' :: d) = d := by
  rw [stripPhoneChars, if_neg (by decide), if_pos rfl]
  have h1 : ('0' :: d).dropWhile (fun x => x = '0')
      = d.dropWhile (fun x => x = '0') := by
    simp [List.dropWhile_cons]
  rw [h1]
  have h2 : d.dropWhile (fun x => x = '0') = d := by
    cases d with
    | nil => rfl
    | cons e t =>
        have he : ¬(e = '0') := fun h => h0 (by simp [h])
        simp [List.dropWhile_cons, he]
  rw [h2]
  exact filter_eq_self_of_none (fun c hc => not_ws_of_digit (hdig c hc))

theorem formatPhoneL_zero_form {d : List Char}
    (hdig : ∀ c ∈ d, c.isDigit = true) (h0 : d.head? ≠ some '0')
    (h254 : starts254 d = false) :
    formatPhoneL ('0' :: d) = '2' :: '5' :: '4' :: d := by
  have hws : ∀ c ∈ '0' :: d, isJsWs c = false := by
    intro c hc
    rcases List.mem_cons.mp hc with rfl | hc
    · decide
    · exact not_ws_of_digit (hdig c hc)
  simp only [formatPhoneL]
  rw [jsTrim_eq_self hws, stripPhoneChars_zero hdig h0, if_neg (by simp [h254])]

theorem formatPhoneL_plus_form {d : List Char}
    (hdig : ∀ c ∈ d, c.isDigit = true) :
    formatPhoneL ('+' :: '2' :: '5' :: '4' :: d) = '2' :: '5' :: '4' :: d := by
  have hws4 : ∀ c ∈ '2' :: '5' :: '4' :: d, isJsWs c = false := by
    intro c hc
    rcases List.mem_cons.mp hc with rfl | hc
    · decide
    · rcases List.mem_cons.mp hc with rfl | hc
      · decide
      · rcases List.mem_cons.mp hc with rfl | hc
        · decide
        · exact not_ws_of_digit (hdig c hc)
  have hws : ∀ c ∈ '+' :: '2' :: '5' :: '4' :: d, isJsWs c = false := by
    intro c hc
    rcases List.mem_cons.mp hc with rfl | hc
    · decide
    · exact hws4 c hc
  simp only [formatPhoneL]
  rw [jsTrim_eq_self hws]
  have hstrip : stripPhoneChars ('+' :: '2' :: '5' :: '4' :: d)
      = '2' :: '5' :: '4' :: d := by
    rw [stripPhoneChars, if_pos rfl]
    exact filter_eq_self_of_none hws4
  rw [hstrip, if_pos (by simp [starts254])]

theorem formatPhoneL_bare_form {d : List Char}
    (hdig : ∀ c ∈ d, c.isDigit = true) (h0 : d.head? ≠ some '0')
    (h254 : starts254 d = false) (hne : d ≠ []) :
    formatPhoneL d = '2' :: '5' :: '4' :: d := by
  cases d with
  | nil => exact absurd rfl hne
  | cons e t =>
      have hws : ∀ c ∈ e :: t, isJsWs c = false :=
        fun c hc => not_ws_of_digit (hdig c hc)
      have he0 : ¬(e = '0') := fun h => h0 (by simp [h])
      have hep : ¬(e = '+') := by
        intro h
        subst h
        exact absurd (hdig '+' (List.mem_cons_self _ _)) (by decide)
      simp only [formatPhoneL]
      rw [jsTrim_eq_self hws]
      have hstrip : stripPhoneChars (e :: t) = e :: t := by
        rw [stripPhoneChars, if_neg hep, if_neg he0]
        exact filter_eq_self_of_none hws
      rw [hstrip, if_neg (by simp [h254])]

theorem isValidPhone_of_nine_digits {d : List Char} (h9 : d.length = 9)
    (hdig : ∀ c ∈ d, c.isDigit = true) :
    isValidPhone ('2' :: '5' :: '4' :: d) = true := by
  simp [isValidPhone, starts254, List.drop, h9, List.all_eq_true]
  exact hdig

theorem custTotal_store {phone : String} (hphone : phone ≠ "")
    (email : Option String) (amount : Int) (cust : Option Customer) :
    custTotal (storeCustomerInformation phone email amount cust)
      = custTotal cust + 1 := by
  unfold storeCustomerInformation
  cases cust <;> simp [custTotal, hphone]

theorem callbackOutcome_status {p : CallbackPayload} {s : Status}
    {r : Option String} {d : String}
    (h : callbackOutcome p = .ok (s, r, d)) :
    s = Status.success ∨ s = Status.failed := by
  unfold callbackOutcome at h
  split at h
  · exact absurd h (by simp)
  · split at h
    · exact absurd h (by simp)
    · split at h
      · left
        simp only [Except.ok.injEq, Prod.mk.injEq] at h
        exact h.1.symm
      · right
        simp only [Except.ok.injEq, Prod.mk.injEq] at h
        exact h.1.symm

/-! ### Claim theorems -/

/-- Claim C10 (confirmed): the phone-number formatting function is
idempotent — applying it twice equals applying it once for every input
string — and every string that already begins with `254` and contains no
whitespace is returned unchanged. -/
theorem formatPhone_idempotent_and_fixed :
    (∀ s : String, formatPhone (formatPhone s) = formatPhone s) ∧
    (∀ s : String, starts254 s.data = true →
      (∀ c ∈ s.data, isJsWs c = false) → formatPhone s = s) := by
  constructor
  · intro s
    show String.mk (formatPhoneL (formatPhoneL s.data)) = String.mk (formatPhoneL s.data)
    rw [formatPhoneL_idem]
  · intro s hs hw
    show String.mk (formatPhoneL s.data) = s
    rw [formatPhoneL_eq_self hs hw]

/-- Witness for claim C10 at concrete inputs. -/
theorem formatPhone_idempotent_and_fixed_witness :
    formatPhone (formatPhone "0712345678") = formatPhone "0712345678" ∧
    formatPhone "254712345678" = "254712345678" :=
  ⟨formatPhone_idempotent_and_fixed.1 "0712345678",
   formatPhone_idempotent_and_fixed.2 "254712345678" (by decide) (by decide)⟩

/-- Claim C6 (confirmed): for every nine-digit subscriber part (not
starting with `0` and not itself starting with `254`), the phone inputs of
the forms `0xxxxxxxxx`, `+254xxxxxxxxx` and `xxxxxxxxx` all normalize to
`254xxxxxxxxx`, which passes the `/^254\d{9}$/` validation; and whenever
the normalized phone fails that validation (with the required request
fields present), the STK-push handler exits with the invalid-phone error,
responds HTTP 400, and makes no gateway request. -/
theorem stkpush_phone_normalization
    (d : List Char) (h9 : d.length = 9) (hdig : ∀ c ∈ d, c.isDigit = true)
    (h0 : d.head? ≠ some '0') (h254 : starts254 d = false) :
    (formatPhone (String.mk ('0' :: d)) = String.mk ('2' :: '5' :: '4' :: d) ∧
     formatPhone (String.mk ('+' :: '2' :: '5' :: '4' :: d))
       = String.mk ('2' :: '5' :: '4' :: d) ∧
     formatPhone (String.mk d) = String.mk ('2' :: '5' :: '4' :: d) ∧
     isValidPhone (String.mk ('2' :: '5' :: '4' :: d)).data = true) ∧
    (∀ (req : StkReq) (doc : Option MerchantSettings),
      req.phone ≠ "" → req.amount ≠ 0 → req.orderId ≠ "" →
      isValidPhone (formatPhone req.phone).data = false →
      stkpushHandler req doc = .invalidPhone ∧
      stkHttpStatus (stkpushHandler req doc) = 400 ∧
      stkGatewayCalled (stkpushHandler req doc) = false) := by
  have hne : d ≠ [] := by
    intro h
    rw [h] at h9
    simp at h9
  constructor
  · refine ⟨?_, ?_, ?_, ?_⟩
    · show String.mk (formatPhoneL ('0' :: d)) = String.mk ('2' :: '5' :: '4' :: d)
      rw [formatPhoneL_zero_form hdig h0 h254]
    · show String.mk (formatPhoneL ('+' :: '2' :: '5' :: '4' :: d))
        = String.mk ('2' :: '5' :: '4' :: d)
      rw [formatPhoneL_plus_form hdig]
    · show String.mk (formatPhoneL d) = String.mk ('2' :: '5' :: '4' :: d)
      rw [formatPhoneL_bare_form hdig h0 h254 hne]
    · exact isValidPhone_of_nine_digits h9 hdig
  · intro req doc hp ha ho hv
    have hout : stkpushHandler req doc = .invalidPhone := by
      unfold stkpushHandler
      rw [if_neg (by simp [hp, ha, ho]), if_pos (by simp [hv])]
    exact ⟨hout, by rw [hout]; rfl, by rw [hout]; rfl⟩

/-- Witness for claim C6: the form `0712345678` normalizes to
`254712345678`, and the unnormalizable phone `"12345"` exits with the
invalid-phone error. -/
theorem stkpush_phone_normalization_witness :
    formatPhone (String.mk ('0' :: "712345678".data))
      = String.mk ('2' :: '5' :: '4' :: "712345678".data) ∧
    stkpushHandler
        { phone := "12345", amount := 100, orderId := "order-1",
          merchantId := some "m1" } none
      = StkOutcome.invalidPhone := by
  refine ⟨(stkpush_phone_normalization "712345678".data (by decide) (by decide)
    (by decide) (by decide)).1.1, ?_⟩
  exact ((stkpush_phone_normalization "712345678".data (by decide) (by decide)
    (by decide) (by decide)).2
    { phone := "12345", amount := 100, orderId := "order-1",
      merchantId := some "m1" } none
    (by decide) (by decide) (by decide) (by decide)).1

/-- Claim C4 (confirmed): for every oracle behaviour (including a failing
persistence layer), every payload (including garbled ones) and every
document state, the callback endpoint responds with the M-Pesa
acknowledgement body and HTTP 200 — never a non-2xx status. -/
theorem callback_always_acks_success (o : Oracle) (p : CallbackPayload)
    (st : ServerState) :
    (handleCallback o p st).1 = mpesaAck ∧ mpesaAck.status = 200 := by
  constructor
  · unfold handleCallback
    split <;> rfl
  · rfl

/-- Claim C5 (code bug, evaluated at the failing input): a payload without
`Body` makes the inline parse of the callback handler throw a `TypeError`
(the route-level catch still acknowledges success), so the pending
transaction is left pending instead of being marked `failed` as the claim
requires. -/
theorem garbled_callback_throws_and_aborts :
    callbackOutcome garbledPayload = .error .typeError ∧
    (handleCallback liveOracle garbledPayload stPending).2 = stPending ∧
    ((handleCallback liveOracle garbledPayload stPending).2.txn.map
        Transaction.status = some Status.pending) := by
  refine ⟨rfl, ?_, ?_⟩ <;> decide

/-- Counterexample to claim C1: delivering the same successful callback
payload twice yields `totalTransactions = 4` on the customer aggregate and
two invoice-pipeline runs — not exactly one increment and at most one
invoice call. -/
theorem redelivery_reruns_side_effects_cex :
    (custTotal stAfterTwo.customer = 4 ∧ stAfterTwo.invoiceCalls = 2) ∧
    ¬(custTotal stAfterTwo.customer = 1 ∧ stAfterTwo.invoiceCalls ≤ 1) := by
  decide

/-- Counterexample to claim C2: a transaction already terminal in
`success` is overwritten to `failed` by a later failed callback — terminal
statuses are not preserved. -/
theorem terminal_status_overwritten_cex :
    ((handleCallback liveOracle failedPayload stTerminal).2.txn.map
        Transaction.status = some Status.failed) ∧
    Status.failed ≠ Status.success := by
  decide

/-- Counterexample to claim C3: the callback handler maps the designated
user-canceled result code 1032 to `failed`, not to `canceled`. -/
theorem canceled_code_maps_to_failed_cex :
    callbackOutcome canceledPayload
      = .ok (Status.failed, none, "Request cancelled by user") ∧
    Status.failed ≠ Status.canceled :=
  ⟨rfl, by decide⟩

/-- Claim C1 (amended): the callback handler has no re-delivery detection
and re-runs the side effects on every delivery of a successful callback:
each delivery increments the Customer counters twice (once directly in the
handler and once more inside the invoice pipeline, whose
`storeInvoiceReference` calls `storeCustomerInformation` again) and makes
one invoice-generation call — so delivering the same payload twice yields
four counter increments and two invoice calls. -/
theorem callback_success_delivery_effects (o : Oracle) (p : CallbackPayload)
    (st : ServerState) (txn : Transaction) (r : Option String) (d : String)
    (htxn : st.txn = some txn)
    (hout : callbackOutcome p = .ok (.success, r, d))
    (hup : o.updateOk = true) (hinv : o.invoiceOk = true)
    (hphone : extractPhone p txn ≠ "") :
    custTotal (handleCallback o p st).2.customer = custTotal st.customer + 2 ∧
    (handleCallback o p st).2.invoiceCalls = st.invoiceCalls + 1 := by
  unfold handleCallback handleCallbackInner
  rw [htxn, hout]
  simp [hup, hinv, custTotal_store hphone]
  omega

/-- Witness for the amended claim C1 at a concrete delivery. -/
theorem callback_success_delivery_effects_witness :
    custTotal (handleCallback liveOracle successPayload stPending).2.customer
      = custTotal stPending.customer + 2 ∧
    (handleCallback liveOracle successPayload stPending).2.invoiceCalls
      = stPending.invoiceCalls + 1 :=
  callback_success_delivery_effects liveOracle successPayload stPending
    pendingTxn (some "ABC123") "Payment successful" rfl rfl rfl rfl (by decide)

/-- Claim C2 (amended): the callback handler overwrites the persisted
status with the newly parsed outcome unconditionally, so terminal statuses
are not preserved; the parsed outcome is always `success` or `failed`, so
`canceled` (and a return to `pending`) is never persisted by this path;
and from `pending` both `success` and `failed` are reachable. -/
theorem callback_status_transition_amended (o : Oracle) (p : CallbackPayload)
    (st : ServerState) (txn : Transaction) (s : Status) (r : Option String)
    (d : String) (htxn : st.txn = some txn) (hup : o.updateOk = true)
    (hout : callbackOutcome p = .ok (s, r, d)) :
    ((handleCallback o p st).2.txn.map Transaction.status = some s) ∧
    (s = Status.success ∨ s = Status.failed) ∧
    ((handleCallback liveOracle successPayload stPending).2.txn.map
        Transaction.status = some Status.success) ∧
    ((handleCallback liveOracle failedPayload stPending).2.txn.map
        Transaction.status = some Status.failed) := by
  refine ⟨?_, callbackOutcome_status hout, by decide, by decide⟩
  unfold handleCallback handleCallbackInner
  rw [htxn, hout]
  rcases callbackOutcome_status hout with hs | hs <;> subst hs
  · by_cases hi : o.invoiceOk <;> simp [hup, hi]
  · simp [hup]

/-- Witness for the amended claim C2: the terminal `success` transaction
is overwritten by a failed callback. -/
theorem callback_status_transition_amended_witness :
    ((handleCallback liveOracle failedPayload stTerminal).2.txn.map
        Transaction.status = some Status.failed) ∧
    (Status.failed = Status.success ∨ Status.failed = Status.failed) ∧
    ((handleCallback liveOracle successPayload stPending).2.txn.map
        Transaction.status = some Status.success) ∧
    ((handleCallback liveOracle failedPayload stPending).2.txn.map
        Transaction.status = some Status.failed) :=
  callback_status_transition_amended liveOracle failedPayload stTerminal
    successTxn Status.failed none
    "The balance is insufficient for the transaction." rfl rfl rfl

/-- Claim C3 (amended): in the callback handler, result code 0 maps to
`success` and the metadata item list is scanned for the receipt-number
field, while every other result code (nonzero or missing) maps to `failed`
— the mapping is total on payloads whose `Body.stkCallback` is present,
and no code maps to `pending` or `canceled` there.  The designated
user-canceled (1032) and still-processing (4999) codes are honoured only
by the query endpoint, whose response flags them as canceled and
processing respectively. -/
theorem result_code_mapping_amended :
    (∀ stk : StkCb, stk.resultCode = some 0 →
      callbackOutcome { body := some { stkCallback := some stk } }
        = .ok (Status.success, scanReceipt stk.items, "Payment successful")) ∧
    (∀ stk : StkCb, stk.resultCode ≠ some 0 →
      callbackOutcome { body := some { stkCallback := some stk } }
        = .ok (Status.failed, none, jsOrStr stk.resultDesc "Payment failed")) ∧
    (∀ (req : QueryReq) (ms : MerchantSettings) (cfg : MpesaSettings)
        (rc : Option String) (txns : TxnStore),
      jsTruthyStr req.queryCode = true → jsTruthyStr req.merchantId = true →
      ms.mpesa = some cfg → cfg.enabled = true →
      jsTruthyStr cfg.shortCode = true → jsTruthyStr cfg.passkey = true →
      ((queryHandler req (some ms) (.ok (.str "0") rc) txns).1.isSuccessful
          = some true ∧
       (queryHandler req (some ms) (.ok (.str "1032") rc) txns).1.isCanceled
          = some true ∧
       (queryHandler req (some ms) (.ok (.num 4999) rc) txns).1.isProcessing
          = some true)) := by
  refine ⟨?_, ?_, ?_⟩
  · intro stk h0
    simp only [callbackOutcome]
    rw [if_pos h0]
  · intro stk h0
    simp only [callbackOutcome]
    rw [if_neg h0]
  · intro req ms cfg rc txns hq hm hcfg hen hsc hpk
    unfold queryHandler
    simp [hq, hm, hcfg, hen, hsc, hpk]

/-- Witness for the amended claim C3 at concrete inputs. -/
theorem result_code_mapping_amended_witness :
    callbackOutcome { body := some { stkCallback := some successStk } }
      = .ok (Status.success, scanReceipt successStk.items, "Payment successful") ∧
    (queryHandler { queryCode := some "q1", merchantId := some "m1" }
        (some { mpesa := some { enabled := true, shortCode := some "4121151",
                                passkey := some "pk" } })
        (.ok (.str "1032") none) []).1.isCanceled = some true := by
  refine ⟨result_code_mapping_amended.1 successStk rfl, ?_⟩
  exact (result_code_mapping_amended.2.2
    { queryCode := some "q1", merchantId := some "m1" }
    { mpesa := some { enabled := true, shortCode := some "4121151",
                      passkey := some "pk" } }
    { enabled := true, shortCode := some "4121151", passkey := some "pk" }
    none []
    (by decide) (by decide) rfl rfl (by decide) (by decide)).2.1

/-- A settings document where each card/wallet gateway is configured with
keys but disabled. -/
def disabledSettings : MerchantSettings :=
  { paystack := some { enabled := false, secretKey := some "sk_live_merchant" },
    stripe := some { enabled := false, secretKey := some "sk_live_merchant2" },
    paypal := some { enabled := false, clientId := some "client-id",
                     clientSecret := some "client-secret" } }

/-- An STK-push request that passes every local check. -/
def stkReqOk : StkReq :=
  { phone := "0712345678", amount := 100, orderId := "order-1",
    merchantId := some "m1" }

/-- Counterexample to claim C7: for a merchant with no settings document
at all, the Paystack, Stripe and PayPal resolvers silently return the
hardcoded default/test credentials instead of failing with a
gateway-not-configured error. -/
theorem default_credentials_fallback_cex :
    getPaystackSecretKey (some "m1") none = DEFAULT_PAYSTACK_SECRET_KEY ∧
    getStripeSecretKey (some "m1") none = DEFAULT_STRIPE_SECRET_KEY ∧
    getPayPalCredentials (some "m1") none = defaultPayPalCreds :=
  ⟨rfl, rfl, rfl⟩

/-- Claim C7 (amended): only the M-Pesa initiation path fails with
distinct configuration errors (settings-not-found, not-enabled,
incomplete-configuration); the Paystack, Stripe and PayPal credential
resolvers silently fall back to the hardcoded default credentials whenever
the merchant has no settings document or the gateway entry is disabled. -/
theorem credentials_resolution_amended
    (mid : String) (hmid : mid ≠ "") (ms : MerchantSettings)
    (ps : PaystackSettings) (hps : ms.paystack = some ps)
    (hpsd : ps.enabled = false)
    (ss : StripeSettings) (hss : ms.stripe = some ss)
    (hssd : ss.enabled = false)
    (pp : PayPalSettings) (hpp : ms.paypal = some pp)
    (hppd : pp.enabled = false) :
    getPaystackSecretKey (some mid) (some ms) = DEFAULT_PAYSTACK_SECRET_KEY ∧
    getStripeSecretKey (some mid) (some ms) = DEFAULT_STRIPE_SECRET_KEY ∧
    getPayPalCredentials (some mid) (some ms) = defaultPayPalCreds ∧
    getPaystackSecretKey (some mid) none = DEFAULT_PAYSTACK_SECRET_KEY ∧
    getStripeSecretKey (some mid) none = DEFAULT_STRIPE_SECRET_KEY ∧
    getPayPalCredentials (some mid) none = defaultPayPalCreds ∧
    (∀ (req : StkReq) (msX : MerchantSettings),
      req.phone ≠ "" → req.amount ≠ 0 → req.orderId ≠ "" →
      isValidPhone (formatPhone req.phone).data = true →
      ¬(req.amount ≤ 0) → jsTruthyStr req.merchantId = true →
      ((msX.mpesa = none →
          stkpushHandler req (some msX) = .settingsNotFound) ∧
       (∀ cfg, msX.mpesa = some cfg → cfg.enabled = false →
          stkpushHandler req (some msX) = .notEnabled) ∧
       (∀ cfg, msX.mpesa = some cfg → cfg.enabled = true →
          (jsTruthyStr cfg.shortCode = false ∨ jsTruthyStr cfg.passkey = false) →
          stkpushHandler req (some msX) = .incompleteConfig))) := by
  have hm : jsTruthyStr (some mid) = true := by simp [jsTruthyStr, hmid]
  refine ⟨?_, ?_, ?_, ?_, ?_, ?_, ?_⟩
  · unfold getPaystackSecretKey
    simp [hm, hps, hpsd]
  · unfold getStripeSecretKey
    simp [hm, hss, hssd]
  · unfold getPayPalCredentials
    simp [hm, hpp, hppd]
  · unfold getPaystackSecretKey
    simp [hm]
  · unfold getStripeSecretKey
    simp [hm]
  · unfold getPayPalCredentials
    simp [hm]
  · intro req msX hp ha ho hv hle hmer
    refine ⟨?_, ?_, ?_⟩
    · intro hmp
      unfold stkpushHandler
      rw [if_neg (by simp [hp, ha, ho]), if_neg (by simp [hv]),
        if_neg hle, if_neg (by simp [hmer])]
      simp [hmp]
    · intro cfg hmp hdis
      unfold stkpushHandler
      rw [if_neg (by simp [hp, ha, ho]), if_neg (by simp [hv]),
        if_neg hle, if_neg (by simp [hmer])]
      simp [hmp, hdis]
    · intro cfg hmp hen hbad
      unfold stkpushHandler
      rw [if_neg (by simp [hp, ha, ho]), if_neg (by simp [hv]),
        if_neg hle, if_neg (by simp [hmer])]
      rcases hbad with hb | hb <;> simp [hmp, hen, hb]

/-- Witness for the amended claim C7 at concrete inputs. -/
theorem credentials_resolution_amended_witness :
    getPaystackSecretKey (some "m1") (some disabledSettings)
      = DEFAULT_PAYSTACK_SECRET_KEY ∧
    stkpushHandler stkReqOk (some { mpesa := none })
      = StkOutcome.settingsNotFound ∧
    stkpushHandler stkReqOk (some { mpesa := some { enabled := false } })
      = StkOutcome.notEnabled := by
  have h := credentials_resolution_amended "m1" (by decide) disabledSettings
    { enabled := false, secretKey := some "sk_live_merchant" } rfl rfl
    { enabled := false, secretKey := some "sk_live_merchant2" } rfl rfl
    { enabled := false, clientId := some "client-id",
      clientSecret := some "client-secret" } rfl rfl
  refine ⟨h.1, ?_, ?_⟩
  · exact (h.2.2.2.2.2.2 stkReqOk { mpesa := none }
      (by decide) (by decide) (by decide) (by decide) (by decide) (by decide)).1
      rfl
  · exact (h.2.2.2.2.2.2 stkReqOk { mpesa := some { enabled := false } }
      (by decide) (by decide) (by decide) (by decide) (by decide) (by decide)).2.1
      { enabled := false } rfl rfl

/-- Claim C8 (confirmed): for every active, unpaid, non-expired link with
a recipient phone and a creation time, tier selection is first-match-wins
in source order — no reminder yet and at least 24 hours since creation
gives `first`; last tier `first` and at least 48 hours since the last
reminder gives `second`; last tier `second` and at least 72 hours gives
`final`; after `final` no tier fires — and at most one tier is selected
per sweep by construction. -/
theorem reminder_tier_selection (nowMs : Int) (link : PaymentLink)
    (hact : link.status = "active")
    (hexp : ∀ e, link.expiryDateSec = some e →
      ¬((e : Rat) < (nowMs : Rat) / 1000))
    (hpaid : link.paid = false)
    (hphone : jsTruthyStr link.recipientPhone = true)
    (hcreated : truthySeconds link.createdAtSec = true) :
    ((truthySeconds link.lastReminderSentSec = false ∧
        hoursBetween nowMs (link.createdAtSec.getD 0) ≥ 24) →
      selectReminderTier nowMs link = some Tier.first) ∧
    ((truthySeconds link.lastReminderSentSec = true ∧
        link.lastReminderType = some "first" ∧
        hoursBetween nowMs (link.lastReminderSentSec.getD 0) ≥ 48) →
      selectReminderTier nowMs link = some Tier.second) ∧
    ((truthySeconds link.lastReminderSentSec = true ∧
        link.lastReminderType = some "second" ∧
        hoursBetween nowMs (link.lastReminderSentSec.getD 0) ≥ 72) →
      selectReminderTier nowMs link = some Tier.final) ∧
    ((truthySeconds link.lastReminderSentSec = true ∧
        link.lastReminderType = some "final") →
      selectReminderTier nowMs link = none) := by
  have hexpb : (match link.expiryDateSec with
      | some e => decide ((e : Rat) < (nowMs : Rat) / 1000)
      | none => false) = false := by
    cases h : link.expiryDateSec with
    | none => rfl
    | some e => simpa using hexp e h
  refine ⟨?_, ?_, ?_, ?_⟩
  · rintro ⟨h1, h2⟩
    unfold selectReminderTier
    simp [hact, hexpb, hpaid, hphone, hcreated, h1, h2]
  · rintro ⟨h1, h2, h3⟩
    unfold selectReminderTier
    simp [hact, hexpb, hpaid, hphone, hcreated, h1, h2, h3]
  · rintro ⟨h1, h2, h3⟩
    unfold selectReminderTier
    simp [hact, hexpb, hpaid, hphone, hcreated, h1, h2, h3]
  · rintro ⟨h1, h2⟩
    unfold selectReminderTier
    simp [hact, hexpb, hpaid, hphone, hcreated, h1, h2]

/-- Witness for claim C8: a link created 100 hours ago with no prior
reminder receives exactly a `first` reminder. -/
theorem reminder_tier_selection_witness :
    selectReminderTier 360001000 link100h = some Tier.first := by
  refine (reminder_tier_selection 360001000 link100h rfl ?_ rfl (by decide)
    (by decide)).1 ⟨rfl, ?_⟩
  · intro e he
    simp [link100h] at he
  · show hoursBetween 360001000 ((link100h.createdAtSec).getD 0) ≥ 24
    norm_num [hoursBetween, link100h]

/-- Claim C9 (confirmed): the query endpoint never writes to the
transaction collection — for every request, settings document, gateway
outcome (success with any result code, every gateway error code, or a
thrown exception) the transaction store after the request equals the store
before it. -/
theorem query_path_does_not_write (req : QueryReq)
    (doc : Option MerchantSettings) (gw : QGateway) (txns : TxnStore) :
    (queryHandler req doc gw txns).2 = txns := by
  unfold queryHandler
  repeat' split
  all_goals rfl

end PayNow
